import Mathlib

/-!
Verification of the TranscribeOne worker/playback core.

The definitions below are a shallow embedding of `transcribeone.py` and
`transcribeone_gui.py`: pure functions are translated directly; stateful
code (the playback controller, the background worker) is translated to
explicit state passing, with the external effects (pygame mixer, network,
filesystem) abstracted as oracle parameters.  File names, field names and
message strings mirror the Python source.
-/

set_option autoImplicit false

/-- `SUPPORTED_FORMATS` from `transcribeone.py`. -/
def SUPPORTED_FORMATS : List String :=
  [".mp3", ".wav", ".flac", ".m4a", ".aac", ".ogg", ".wma", ".webm"]

/-- Observable facts about a path, standing in for the `os.path` queries made
by `validate_audio_file`. -/
structure FileStat where
  fexists : Bool
  isFile : Bool
  readable : Bool
  size : Nat
deriving DecidableEq, Repr

/-- `audio_file.lower().endswith(SUPPORTED_FORMATS)` from `transcribeone.py`. -/
def has_supported_format (audio_file : String) : Bool :=
  SUPPORTED_FORMATS.any (fun ext => audio_file.toLower.endsWith ext)

/-- The supported-set listing used in the UnsupportedFormat message:
`', '.join(SUPPORTED_FORMATS)`. -/
def supported_formats_line : String := String.intercalate ", " SUPPORTED_FORMATS

/-- `validate_audio_file` from `transcribeone.py`.  The `ValueError` messages
become the `Except.error` payload; the `os` queries are read from `st`. -/
def validate_audio_file (audio_file : String) (st : FileStat) : Except String Unit :=
  if st.fexists = false then
    Except.error ("File not found: " ++ audio_file)
  else if st.isFile = false then
    Except.error ("Not a file: " ++ audio_file)
  else if st.readable = false then
    Except.error ("Permission denied: " ++ audio_file)
  else if st.size = 0 then
    Except.error ("File is empty: " ++ audio_file)
  else if has_supported_format audio_file = false then
    Except.error ("Unsupported audio format: " ++ audio_file ++
      "\nSupported formats: " ++ supported_formats_line)
  else
    Except.ok ()

/-- `_format_speaker` from `transcribeone_gui.py`. -/
def format_speaker (label : String) (identified : Bool) : String :=
  if identified || label.length > 1 then label
  else "SPEAKER " ++ label

/-- The RenameMap: `self._speaker_name_vars`, a dict from original speaker
label to the current content of the user-editable entry field. -/
def RenameMap : Type := List (String × String)

/-- Python's `str.strip()`: drop whitespace from both ends. -/
def py_strip (s : String) : String :=
  String.mk
    (((s.data.dropWhile Char.isWhitespace).reverse.dropWhile
        Char.isWhitespace).reverse)

/-- `_get_speaker_display` from `transcribeone_gui.py`: a non-empty (after
`strip()`) override wins, otherwise fall back to `_format_speaker`. -/
def get_speaker_display (renames : List (String × String)) (label : String)
    (identified : Bool) : String :=
  match renames.lookup label with
  | some value =>
    if py_strip value ≠ "" then py_strip value
    else format_speaker label identified
  | none => format_speaker label identified

/-- The `parts` list built by the loop in `_render_transcript`
(`transcribeone_gui.py`): `prev` carries the previous raw speaker label, a
blank separator line is appended whenever the raw speaker changes. -/
def render_parts (renames : List (String × String)) (identified : Bool) :
    List (String × String) → Option String → List String
  | [], _ => []
  | (speaker, utt) :: rest, prev =>
    (match prev with
     | some p => if speaker ≠ p then [""] else []
     | none => []) ++
      (get_speaker_display renames speaker identified ++ ": " ++ utt) ::
        render_parts renames identified rest (some speaker)

/-- `_render_transcript` from `transcribeone_gui.py`, as a pure function of
the raw results, the rename map and the `speakers_identified` flag. -/
def render_transcript (renames : List (String × String)) (identified : Bool)
    (raw_results : List (String × String)) : String :=
  if raw_results = [] then "No speech detected."
  else String.intercalate "\n" (render_parts renames identified raw_results none)

/-- Spec-level rendering, written the way the claim states it: each line is
`"<label>: <text>"` and exactly one blank line precedes a line whose speaker
differs from the previous line's speaker (`prev`). -/
def spec_lines_from (renames : List (String × String)) (identified : Bool)
    (prev : String) : List (String × String) → List String
  | [] => []
  | (speaker, utt) :: rest =>
    if speaker = prev then
      (get_speaker_display renames speaker identified ++ ": " ++ utt) ::
        spec_lines_from renames identified speaker rest
    else
      "" :: (get_speaker_display renames speaker identified ++ ": " ++ utt) ::
        spec_lines_from renames identified speaker rest

/-- Spec-level rendering of the whole utterance list (first line has no
previous speaker, hence no separator before it). -/
def spec_lines (renames : List (String × String)) (identified : Bool) :
    List (String × String) → List String
  | [] => []
  | (speaker, utt) :: rest =>
    (get_speaker_display renames speaker identified ++ ": " ++ utt) ::
      spec_lines_from renames identified speaker rest

/-- A JSON value, modelling the decoded response bodies handled by
`identify_speakers` in `transcribeone.py`. -/
inductive Jval where
  | jnull
  | jbool (b : Bool)
  | jnum (n : Int)
  | jstr (s : String)
  | jarr (items : List Jval)
  | jobj (fields : List (String × Jval))

/-- The Python exceptions caught by the second `try` of `identify_speakers`. -/
inductive PyErr where
  | keyError
  | typeError
deriving DecidableEq, Repr

/-- Python subscripting `value[key]` with a string key: a dict yields the
entry or raises `KeyError`; every other value raises `TypeError`. -/
def getItem : Jval → String → Except PyErr Jval
  | Jval.jobj fields, key =>
    match fields.lookup key with
    | some v => Except.ok v
    | none => Except.error PyErr.keyError
  | _, _ => Except.error PyErr.typeError

/-- Python iteration `for u in value`: lists yield their items, dicts their
keys, strings their characters; other values raise `TypeError`. -/
def pyIter : Jval → Except PyErr (List Jval)
  | Jval.jarr items => Except.ok items
  | Jval.jobj fields => Except.ok (fields.map (fun f => Jval.jstr f.1))
  | Jval.jstr s => Except.ok (s.data.map (fun c => Jval.jstr (String.singleton c)))
  | _ => Except.error PyErr.typeError

/-- `(u["speaker"], u["text"])` for one element of the utterance list. -/
def extract_utterance (u : Jval) : Except PyErr (Jval × Jval) := do
  let s ← getItem u "speaker"
  let t ← getItem u "text"
  pure (s, t)

/-- The body of the second `try` of `identify_speakers`: walk the nested
response envelope and build the `(speaker, text)` pairs; any `KeyError` or
`TypeError` on the way aborts the whole extraction. -/
def extract_identified (body : Jval) : Except PyErr (List (Jval × Jval)) := do
  let su ← getItem body "speech_understanding"
  let resp ← getItem su "response"
  let si ← getItem resp "speaker_identification"
  let utts ← getItem si "utterances"
  let items ← pyIter utts
  items.mapM extract_utterance

/-- The HTTP request assembled by `identify_speakers`. -/
structure IdRequest where
  url : String
  payload : Jval
  authorization : String
  contentType : String

/-- Outcome of `urlopen` + `resp.read().decode("utf-8")` + `json.loads`:
`failure` covers `URLError`, `HTTPError` and `json.JSONDecodeError`, all of
which the function's `except` clause catches; `undecodable` is a response
body that is not valid UTF-8, whose `UnicodeDecodeError` (its message in
`msg`) is NOT in the caught tuple; `success` carries the decoded body. -/
inductive NetResult where
  | failure
  | undecodable (msg : String)
  | success (body : Jval)

/-- `speaker_id_config` from `identify_speakers`: `known_values` is included
only when the list is non-empty (Python truthiness of the argument). -/
def speaker_id_config (speaker_type : String) (known_values : List String) :
    List (String × Jval) :=
  ("speaker_type", Jval.jstr speaker_type) ::
    (if known_values ≠ [] then
      [("known_values", Jval.jarr (known_values.map Jval.jstr))]
     else [])

/-- The request `payload` dict of `identify_speakers`. -/
def identify_payload (transcript_id speaker_type : String)
    (known_values : List String) : Jval :=
  Jval.jobj
    [("transcript_id", Jval.jstr transcript_id),
     ("speech_understanding", Jval.jobj
       [("request", Jval.jobj
         [("speaker_identification",
           Jval.jobj (speaker_id_config speaker_type known_values))])])]

/-- The single `Request` issued by `identify_speakers`. -/
def identify_request (transcript_id api_key speaker_type : String)
    (known_values : List String) : IdRequest :=
  { url := "https://llm-gateway.assemblyai.com/v1/understanding",
    payload := identify_payload transcript_id speaker_type known_values,
    authorization := api_key,
    contentType := "application/json" }

/-- `identify_speakers` from `transcribeone.py`, with the network abstracted
as `net`.  A caught transport/JSON failure or a failed envelope extraction
yields `Except.ok []`; a successful extraction yields its pairs; but an
invalid-UTF-8 response body raises `UnicodeDecodeError`, which the
`except (URLError, HTTPError, json.JSONDecodeError)` clause does not catch,
so the exception propagates to the caller (`Except.error`). -/
def identify_speakers (transcript_id api_key speaker_type : String)
    (known_values : List String) (net : IdRequest → NetResult) :
    Except String (List (Jval × Jval)) :=
  match net (identify_request transcript_id api_key speaker_type known_values) with
  | NetResult.failure => Except.ok []
  | NetResult.undecodable msg => Except.error msg
  | NetResult.success body =>
    match extract_identified body with
    | Except.error _ => Except.ok []
    | Except.ok pairs => Except.ok pairs

/-- Events the worker posts to the control thread via `self.root.after`
(`transcribeone_gui.py`): status-bar updates are progress events, and the
two possible final postings (`_on_transcription_complete`,
`_on_transcription_error`) are the terminal events. -/
inductive WorkerEvent where
  | progress (msg : String)
  | complete (audio_file : String) (results : List (String × String))
      (speakers_identified : Bool)
  | failure (msg : String)
deriving DecidableEq, Repr

/-- Whether an event is terminal (a completion or an error). -/
def isTerminal : WorkerEvent → Bool
  | WorkerEvent.progress _ => false
  | WorkerEvent.complete _ _ _ => true
  | WorkerEvent.failure _ => true

/-- The identification-and-completion tail of `_transcription_worker`: the
identification stage runs only when `results and speaker_names` is truthy;
the status update is posted before the call, so when `identify_speakers`
raises (an `Except.error`, e.g. the uncaught `UnicodeDecodeError`) the
progress event has already been posted and the worker's single `except`
posts the error event; a non-empty identification result replaces
`results` wholesale. -/
def worker_after_transcription (audio_file api_key : String)
    (speaker_names : List String)
    (identify : String → String → String → List String →
      Except String (List (String × String)))
    (transcript_id : String) (results : List (String × String)) :
    List WorkerEvent :=
  if results ≠ [] ∧ speaker_names ≠ [] then
    match identify transcript_id api_key "name" speaker_names with
    | Except.error e =>
      [WorkerEvent.progress "Identifying speakers…", WorkerEvent.failure e]
    | Except.ok identified =>
      if identified ≠ [] then
        [WorkerEvent.progress "Identifying speakers…",
         WorkerEvent.complete audio_file identified true]
      else
        [WorkerEvent.progress "Identifying speakers…",
         WorkerEvent.complete audio_file results false]
  else
    [WorkerEvent.complete audio_file results false]

/-- `_transcription_worker` from the call to `run_transcription` onward:
a `TranscribeError` (or any other exception) from the transcription call is
caught by the worker's `except` and posted as the single error event. -/
def worker_stage2 (audio_file api_key : String) (speaker_names : List String)
    (transcribe : String → Except String (String × List (String × String)))
    (identify : String → String → String → List String →
      Except String (List (String × String)))
    (actual_audio : String) : List WorkerEvent :=
  match transcribe actual_audio with
  | Except.error e => [WorkerEvent.failure e]
  | Except.ok (transcript_id, results) =>
    worker_after_transcription audio_file api_key speaker_names identify
      transcript_id results

/-- `_transcription_worker` from `transcribeone_gui.py`: the whole body runs
under one `try`; `convert` stands for `convert_video_to_audio` (its
`RuntimeError` is caught and posted as the error event), `transcribe` for
`run_transcription`, `identify` for `identify_speakers` (which may itself
raise — an `Except.error` — caught by the same `except`).  The returned
list is the ordered sequence of events posted through `self.root.after`. -/
def transcription_worker (audio_file api_key : String)
    (speaker_names : List String) (is_video : Bool)
    (convert : String → Except String String)
    (transcribe : String → Except String (String × List (String × String)))
    (identify : String → String → String → List String →
      Except String (List (String × String))) :
    List WorkerEvent :=
  if is_video then
    match convert audio_file with
    | Except.error e => [WorkerEvent.failure e]
    | Except.ok actual_audio =>
      WorkerEvent.progress "Uploading and transcribing…" ::
        worker_stage2 audio_file api_key speaker_names transcribe identify
          actual_audio
  else
    worker_stage2 audio_file api_key speaker_names transcribe identify audio_file

/-- The playback-relevant state of `TranscribeOneApp`: the `_playing` and
`_paused` flags, the position/seek variable, the path held by
`_audio_path_var`, `_loaded_audio_path`, the mixer frequency, and whether a
periodic `_update_position` callback is scheduled. -/
structure Player where
  playing : Bool
  paused : Bool
  position : ℚ
  audioPath : String
  loadedPath : Option String
  freq : Int
  refreshScheduled : Bool
deriving DecidableEq

/-- The transport state of the playback state machine. -/
inductive Transport where
  | stopped
  | playing
  | paused
deriving DecidableEq, Repr

/-- The transport state read off the two flags. -/
def Player.transport (p : Player) : Transport :=
  if p.playing then Transport.playing
  else if p.paused then Transport.paused
  else Transport.stopped

/-- `_stop_playback` from `transcribeone_gui.py`: halt the mixer, clear both
flags, reset the position variable to 0 and cancel the periodic refresh. -/
def stop_playback (p : Player) : Player :=
  { p with playing := false, paused := false, position := 0,
           refreshScheduled := false }

/-- `_set_audio_path` from `transcribeone_gui.py`: stop playback, store the
new path, and forget the previously loaded path. -/
def set_audio_path (path : String) (p : Player) : Player :=
  let p1 := stop_playback p
  { p1 with audioPath := path, loadedPath := none }

/-- `_apply_speed` from `transcribeone_gui.py`: stop the music, re-init the
mixer at `int(44100 * speed)` and restart playback of `audio_file` from the
beginning; if the re-init path fails (`init_ok = false`), fall back to
re-initialising at the default rate and still restart playback. -/
def apply_speed (speed : ℚ) (audio_file : String) (init_ok : Bool)
    (p : Player) : Player :=
  if init_ok then
    { p with freq := ⌊(44100 : ℚ) * speed⌋, loadedPath := some audio_file,
             position := 0 }
  else
    { p with freq := 44100, loadedPath := some audio_file, position := 0 }

/-- `_on_speed_change` from `transcribeone_gui.py`: nothing happens unless a
file is selected and the player is currently playing; in that case the
current position is saved, `_apply_speed` re-opens the transport,
`set_pos` restores the position (best effort, `set_pos_ok`), and the flags
are set back to playing. -/
def on_speed_change (speed : ℚ) (audio_file : String)
    (init_ok set_pos_ok : Bool) (p : Player) : Player :=
  if p.playing = false ∧ p.paused = false then p
  else if audio_file ≠ "" ∧ p.playing = true then
    let pos := p.position
    let p1 := apply_speed speed audio_file init_ok p
    let p2 := if set_pos_ok then { p1 with position := pos } else p1
    { p2 with playing := true, paused := false }
  else p

/-- The loop of `_build_rename_fields` collecting unique speakers: `acc` is
the `speakers` list (doubling as the `seen` set); the loop breaks as soon as
six speakers have been collected. -/
def build_rename_speakers_go : List (String × String) → List String → List String
  | [], acc => acc
  | (speaker, _) :: rest, acc =>
    if speaker ∈ acc then build_rename_speakers_go rest acc
    else if acc.length + 1 ≥ 6 then acc ++ [speaker]
    else build_rename_speakers_go rest (acc ++ [speaker])

/-- The speaker labels for which `_build_rename_fields` creates an editable
override field. -/
def build_rename_speakers (results : List (String × String)) : List String :=
  build_rename_speakers_go results []

/-- First-occurrence deduplication with an explicit set of already-seen
labels: keep a label the first time it appears, skip it afterwards. -/
def distinct_seen (seen : List String) : List String → List String
  | [] => []
  | x :: xs =>
    if x ∈ seen then distinct_seen seen xs
    else x :: distinct_seen (seen ++ [x]) xs

/-- First-occurrence deduplication, as the claim phrases it: the distinct
labels in order of first appearance. -/
def distinct_in_order (l : List String) : List String := distinct_seen [] l

theorem ne_of_length_ne {s t : String} (h : s.length ≠ t.length) : s ≠ t :=
  fun e => h (congrArg String.length e)

theorem render_parts_eq_spec_from (renames : List (String × String))
    (identified : Bool) :
    ∀ (l : List (String × String)) (prev : String),
      render_parts renames identified l (some prev) =
        spec_lines_from renames identified prev l := by
  intro l
  induction l with
  | nil => intro prev; rfl
  | cons head rest ih =>
    intro prev
    obtain ⟨speaker, utt⟩ := head
    by_cases h : speaker = prev
    · simp [render_parts, spec_lines_from, h, ih]
    · simp [render_parts, spec_lines_from, h, ih]

theorem render_parts_eq_spec (renames : List (String × String))
    (identified : Bool) (l : List (String × String)) :
    render_parts renames identified l none = spec_lines renames identified l := by
  cases l with
  | nil => rfl
  | cons head rest =>
    obtain ⟨speaker, utt⟩ := head
    simp [render_parts, spec_lines, render_parts_eq_spec_from]

/-- C1: the display-name precedence is: non-empty (after trimming) override
from the rename map first, then the label as-is when identification
succeeded, then the default formatting — which prefixes "SPEAKER " only to
labels of at most one character; a non-identified label longer than one
character is used as-is (this is the amendment forced by the
counterexample).  Whitespace-only overrides are ignored.  The computation is
a pure function of the raw results and the rename map, so re-applying it
after the map changes is deterministic and involves no network stage. -/
theorem C1_display_precedence :
    ∀ (renames : List (String × String)) (label : String) (identified : Bool),
      (∀ value, renames.lookup label = some value → py_strip value ≠ "" →
        get_speaker_display renames label identified = py_strip value) ∧
      (∀ value, renames.lookup label = some value → py_strip value = "" →
        get_speaker_display renames label identified =
          format_speaker label identified) ∧
      (renames.lookup label = none →
        get_speaker_display renames label identified =
          format_speaker label identified) ∧
      (identified = true → format_speaker label identified = label) ∧
      (identified = false → 1 < label.length →
        format_speaker label identified = label) ∧
      (identified = false → label.length ≤ 1 →
        format_speaker label identified = "SPEAKER " ++ label) := by
  intro renames label identified
  refine ⟨?_, ?_, ?_, ?_, ?_, ?_⟩
  · intro value hv hne
    simp [get_speaker_display, hv, hne]
  · intro value hv he
    simp [get_speaker_display, hv, he]
  · intro hn
    simp [get_speaker_display, hn]
  · intro h
    simp [format_speaker, h]
  · intro h hl
    simp [format_speaker, h, hl]
  · intro h hl
    have : ¬ (1 : Nat) < label.length := by omega
    simp [format_speaker, h, this]

/-- C1 counterexample: with an empty rename map and no identification, the
label "AB" is displayed as-is, not as "SPEAKER AB" as the claim's
unconditional prefixing branch demands. -/
theorem C1_display_precedence_counterexample :
    get_speaker_display [] "AB" false = "AB" ∧ "AB" ≠ "SPEAKER AB" := by
  exact ⟨rfl, by decide⟩

theorem C1_display_precedence_witness :
    get_speaker_display [("A", " Alice ")] "A" false = py_strip " Alice " :=
  (C1_display_precedence [("A", " Alice ")] "A" false).1 " Alice " rfl (by decide)

/-- C2: the rendered transcript is one line per utterance of the form
"label: text" with exactly one blank line inserted wherever the speaker
changes from the previous line (`spec_lines` is that description verbatim);
the raw utterances [("A","hi"),("B","yo")] with no rename entries and no
identification render as "SPEAKER A: hi\n\nSPEAKER B: yo"; and the empty
utterance list renders as the fixed placeholder "No speech detected.",
which is not the empty string. -/
theorem C2_render_transcript :
    (∀ (renames : List (String × String)) (identified : Bool)
        (raw : List (String × String)), raw ≠ [] →
      render_transcript renames identified raw =
        String.intercalate "\n" (spec_lines renames identified raw)) ∧
    render_transcript [] false [("A", "hi"), ("B", "yo")] =
      "SPEAKER A: hi\n\nSPEAKER B: yo" ∧
    (∀ (renames : List (String × String)) (identified : Bool),
      render_transcript renames identified [] = "No speech detected.") ∧
    "No speech detected." ≠ "" := by
  refine ⟨?_, ?_, ?_, by decide⟩
  · intro renames identified raw hne
    simp [render_transcript, hne, render_parts_eq_spec]
  · rfl
  · intro renames identified
    rfl

theorem C2_render_transcript_witness :
    render_transcript [] false [("A", "hi"), ("B", "yo")] =
      String.intercalate "\n" (spec_lines [] false [("A", "hi"), ("B", "yo")]) :=
  C2_render_transcript.1 [] false _ (by decide)

/-- C3: the identified flag is carried explicitly next to the label, but the
display formatting does not depend on the flag alone: a label is rendered
as-is exactly when the flag is set or the label is longer than one
character, and the "SPEAKER " prefix is applied exactly to non-identified
labels of at most one character (the amendment forced by the
counterexample).  In particular an identified single-character name is
rendered as-is. -/
theorem C3_format_flag :
    ∀ (label : String) (identified : Bool),
      (format_speaker label identified = label ↔
        (identified = true ∨ 1 < label.length)) ∧
      (identified = false → label.length ≤ 1 →
        format_speaker label identified = "SPEAKER " ++ label) := by
  intro label identified
  have hpre : "SPEAKER " ++ label ≠ label := by
    apply ne_of_length_ne
    rw [String.length_append]
    have : ("SPEAKER " : String).length = 8 := by decide
    omega
  constructor
  · constructor
    · intro h
      by_contra hc
      push_neg at hc
      obtain ⟨h1, h2⟩ := hc
      have hid : identified = false := by
        cases identified
        · rfl
        · exact absurd rfl h1
      rw [hid] at h
      have hlen : ¬ (1 : Nat) < label.length := by omega
      simp [format_speaker, hlen] at h
      exact hpre h
    · intro h
      cases h with
      | inl h => simp [format_speaker, h]
      | inr h => simp [format_speaker, h]
  · intro h hl
    have : ¬ (1 : Nat) < label.length := by omega
    simp [format_speaker, h, this]

/-- C3 counterexample: the non-identified label "Bo" is longer than one
character; the claim requires it to receive the generic "SPEAKER " prefix,
but the code renders it as-is. -/
theorem C3_format_flag_counterexample :
    format_speaker "Bo" false = "Bo" ∧ "Bo" ≠ "SPEAKER Bo" := by
  exact ⟨rfl, by decide⟩

theorem C3_format_flag_witness :
    format_speaker "A" false = "SPEAKER " ++ "A" :=
  (C3_format_flag "A" false).2 rfl (by decide)

/-- C7: `validate_audio_file` checks exists → regular file → readable →
size > 0 → supported extension (case-insensitive), failing fast with a
distinct message for the first violated condition; in particular a
zero-byte file is rejected as Empty whatever its extension, and the
UnsupportedFormat message carries the supported-set listing.  The five
error messages are pairwise distinct for every path. -/
theorem C7_validate_order :
    ∀ (path : String) (st : FileStat),
      (st.fexists = false →
        validate_audio_file path st =
          Except.error ("File not found: " ++ path)) ∧
      (st.fexists = true → st.isFile = false →
        validate_audio_file path st = Except.error ("Not a file: " ++ path)) ∧
      (st.fexists = true → st.isFile = true → st.readable = false →
        validate_audio_file path st =
          Except.error ("Permission denied: " ++ path)) ∧
      (st.fexists = true → st.isFile = true → st.readable = true →
        st.size = 0 →
        validate_audio_file path st =
          Except.error ("File is empty: " ++ path)) ∧
      (st.fexists = true → st.isFile = true → st.readable = true →
        0 < st.size → has_supported_format path = false →
        validate_audio_file path st =
          Except.error ("Unsupported audio format: " ++ path ++
            "\nSupported formats: " ++ supported_formats_line)) ∧
      (st.fexists = true → st.isFile = true → st.readable = true →
        0 < st.size → has_supported_format path = true →
        validate_audio_file path st = Except.ok ()) ∧
      List.Pairwise (fun a b => a ≠ b)
        ["File not found: " ++ path, "Not a file: " ++ path,
         "Permission denied: " ++ path, "File is empty: " ++ path,
         "Unsupported audio format: " ++ path ++
           "\nSupported formats: " ++ supported_formats_line] := by
  intro path st
  refine ⟨?_, ?_, ?_, ?_, ?_, ?_, ?_⟩
  · intro h1
    simp [validate_audio_file, h1]
  · intro h1 h2
    simp [validate_audio_file, h1, h2]
  · intro h1 h2 h3
    simp [validate_audio_file, h1, h2, h3]
  · intro h1 h2 h3 h4
    simp [validate_audio_file, h1, h2, h3, h4]
  · intro h1 h2 h3 h4 h5
    have h4' : st.size ≠ 0 := by omega
    simp [validate_audio_file, h1, h2, h3, h4', h5]
  · intro h1 h2 h3 h4 h5
    have h4' : st.size ≠ 0 := by omega
    simp [validate_audio_file, h1, h2, h3, h4', h5]
  · have e1 : ("File not found: " : String).length = 16 := by decide
    have e2 : ("Not a file: " : String).length = 12 := by decide
    have e3 : ("Permission denied: " : String).length = 19 := by decide
    have e4 : ("File is empty: " : String).length = 15 := by decide
    have e5 : ("Unsupported audio format: " : String).length = 26 := by decide
    have step : List.Pairwise (fun a b : String => a.length ≠ b.length)
        ["File not found: " ++ path, "Not a file: " ++ path,
         "Permission denied: " ++ path, "File is empty: " ++ path,
         "Unsupported audio format: " ++ path ++
           "\nSupported formats: " ++ supported_formats_line] := by
      refine List.Pairwise.cons ?_ (List.Pairwise.cons ?_
        (List.Pairwise.cons ?_ (List.Pairwise.cons ?_
          (List.Pairwise.cons ?_ List.Pairwise.nil)))) <;>
        (intro b hb; fin_cases hb <;>
          (simp only [String.length_append, e1, e2, e3, e4, e5]; omega))
    exact step.imp (fun h => ne_of_length_ne h)

theorem C7_validate_order_witness :
    validate_audio_file "a.xyz"
        { fexists := true, isFile := true, readable := true, size := 0 } =
      Except.error ("File is empty: " ++ "a.xyz") :=
  (C7_validate_order "a.xyz"
    { fexists := true, isFile := true, readable := true, size := 0 }).2.2.2.1
    rfl rfl rfl rfl

/-- C9: from every playback state, `_stop_playback` leaves the transport
Stopped with position 0 and the periodic refresh cancelled, and
`_set_audio_path` (selecting a new file) does the same regardless of the
prior state, so "transport = Stopped implies position = 0" holds after
every stop and every file selection. -/
theorem C9_stop_resets :
    ∀ (p : Player) (path : String),
      (stop_playback p).transport = Transport.stopped ∧
      (stop_playback p).position = 0 ∧
      (stop_playback p).refreshScheduled = false ∧
      (set_audio_path path p).transport = Transport.stopped ∧
      (set_audio_path path p).position = 0 ∧
      (set_audio_path path p).refreshScheduled = false := by
  intro p path
  exact ⟨rfl, rfl, rfl, rfl, rfl, rfl⟩

/-- A player paused mid-file, used as the C8 counterexample state. -/
def paused_player : Player :=
  { playing := false, paused := true, position := 5, audioPath := "a.mp3",
    loadedPath := some "a.mp3", freq := 44100, refreshScheduled := false }

/-- C8 counterexample: a speed change to 2.0x while Paused leaves the state
completely unchanged — the transport is not re-opened at the adjusted rate
(the frequency stays 44100, not 88200), contradicting the claim's "while
Playing or Paused" scope. -/
theorem C8_speed_change_counterexample :
    on_speed_change 2 "a.mp3" true true paused_player = paused_player ∧
    paused_player.freq = 44100 ∧ ⌊(44100 : ℚ) * 2⌋ = 88200 ∧
    (44100 : Int) ≠ 88200 := by
  refine ⟨rfl, rfl, ?_, by decide⟩
  have h : ((44100 : ℚ) * 2) = ((88200 : ℤ) : ℚ) := by norm_num
  rw [h, Int.floor_intCast]

/-- C8 (amended): when the speed multiplier changes while the player is
Playing (with a file selected), the transport is re-opened at
`int(44100 * speed)` with the current position restored (when the
transport's reposition call succeeds) and the playing state resumed; if
re-opening at the adjusted rate fails, the player falls back to the
unmodified rate 44100 and keeps playing.  A speed change while not Playing
(including Paused) leaves the state unchanged. -/
theorem C8_speed_change :
    ∀ (speed : ℚ) (file : String) (init_ok set_pos_ok : Bool) (p : Player),
      (p.playing = true → file ≠ "" → set_pos_ok = true → init_ok = true →
        on_speed_change speed file init_ok set_pos_ok p =
          { p with freq := ⌊(44100 : ℚ) * speed⌋, loadedPath := some file,
                   playing := true, paused := false, position := p.position }) ∧
      (p.playing = true → file ≠ "" → init_ok = false →
        ((on_speed_change speed file init_ok set_pos_ok p).freq = 44100 ∧
         (on_speed_change speed file init_ok set_pos_ok p).playing = true ∧
         (set_pos_ok = true →
           (on_speed_change speed file init_ok set_pos_ok p).position =
             p.position))) ∧
      (p.playing = false → on_speed_change speed file init_ok set_pos_ok p = p) := by
  intro speed file init_ok set_pos_ok p
  refine ⟨?_, ?_, ?_⟩
  · intro h1 h2 h3 h4
    subst h3; subst h4
    simp [on_speed_change, apply_speed, h1, h2]
  · intro h1 h2 h3
    subst h3
    cases hsp : set_pos_ok <;>
      simp [on_speed_change, apply_speed, h1, h2, hsp]
  · intro h1
    cases hp : p.paused <;> simp [on_speed_change, h1, hp]

/-- A player playing mid-file, used to witness the amended C8. -/
def playing_player : Player :=
  { playing := true, paused := false, position := 3, audioPath := "a.mp3",
    loadedPath := some "a.mp3", freq := 44100, refreshScheduled := true }

theorem filter_isTerminal_progress (msg : String) (l : List WorkerEvent) :
    (WorkerEvent.progress msg :: l).filter isTerminal = l.filter isTerminal := by
  simp [isTerminal]

theorem getLast?_cons_of_getLast? (a : WorkerEvent) {l : List WorkerEvent}
    {t : WorkerEvent} (h : l.getLast? = some t) : (a :: l).getLast? = some t := by
  cases l with
  | nil => simp at h
  | cons b m => rw [List.getLast?_cons_cons]; exact h

theorem after_transcription_terminal (file key : String) (names : List String)
    (identify : String → String → String → List String →
      Except String (List (String × String)))
    (tid : String) (results : List (String × String)) :
    ((worker_after_transcription file key names identify tid results).filter
        isTerminal).length = 1 ∧
    (∃ t, (worker_after_transcription file key names identify tid
        results).getLast? = some t ∧ isTerminal t = true) := by
  by_cases h1 : results ≠ [] ∧ names ≠ []
  · cases hi : identify tid key "name" names with
    | error e =>
      refine ⟨?_, ⟨WorkerEvent.failure e, ?_, rfl⟩⟩ <;>
        simp [worker_after_transcription, h1, hi, isTerminal]
    | ok idres =>
      by_cases h2 : idres ≠ []
      · refine ⟨?_, ⟨WorkerEvent.complete file idres true, ?_, rfl⟩⟩ <;>
          simp [worker_after_transcription, h1, hi, h2, isTerminal]
      · refine ⟨?_, ⟨WorkerEvent.complete file results false, ?_, rfl⟩⟩ <;>
          simp [worker_after_transcription, h1, hi, h2, isTerminal]
  · refine ⟨?_, ⟨WorkerEvent.complete file results false, ?_, rfl⟩⟩ <;>
      simp [worker_after_transcription, h1, isTerminal]

theorem stage2_terminal (file key : String) (names : List String)
    (transcribe : String → Except String (String × List (String × String)))
    (identify : String → String → String → List String →
      Except String (List (String × String)))
    (actual : String) :
    ((worker_stage2 file key names transcribe identify actual).filter
        isTerminal).length = 1 ∧
    (∃ t, (worker_stage2 file key names transcribe identify actual).getLast? =
      some t ∧ isTerminal t = true) := by
  cases h : transcribe actual with
  | error e =>
    exact ⟨by simp [worker_stage2, h, isTerminal],
      ⟨WorkerEvent.failure e, by simp [worker_stage2, h], rfl⟩⟩
  | ok pr =>
    obtain ⟨tid, results⟩ := pr
    have hat := after_transcription_terminal file key names identify tid results
    simpa [worker_stage2, h] using hat

/-- C4: for every job configuration and every outcome of the conversion,
transcription and identification stages — including an exception raised
inside the identification call, such as the `UnicodeDecodeError` that
escapes `identify_speakers` — the worker posts exactly one terminal event
through the bridge, the last posted event is terminal, and each failing
stage is caught at the worker boundary and delivered as the single
terminal error event carrying its message (nothing propagates past the
worker). -/
theorem C4_worker_single_terminal :
    ∀ (audio_file api_key : String) (speaker_names : List String)
      (is_video : Bool) (convert : String → Except String String)
      (transcribe : String → Except String (String × List (String × String)))
      (identify : String → String → String → List String →
        Except String (List (String × String))),
      ((transcription_worker audio_file api_key speaker_names is_video convert
          transcribe identify).filter isTerminal).length = 1 ∧
      (∃ t, (transcription_worker audio_file api_key speaker_names is_video
          convert transcribe identify).getLast? = some t ∧
          isTerminal t = true) ∧
      (∀ e, is_video = true → convert audio_file = Except.error e →
        transcription_worker audio_file api_key speaker_names is_video convert
          transcribe identify = [WorkerEvent.failure e]) ∧
      (∀ e, is_video = false → transcribe audio_file = Except.error e →
        transcription_worker audio_file api_key speaker_names is_video convert
          transcribe identify = [WorkerEvent.failure e]) ∧
      (∀ actual e, is_video = true → convert audio_file = Except.ok actual →
        transcribe actual = Except.error e →
        transcription_worker audio_file api_key speaker_names is_video convert
          transcribe identify =
          [WorkerEvent.progress "Uploading and transcribing…",
           WorkerEvent.failure e]) ∧
      (∀ e actual tid results,
        (if is_video then convert audio_file else Except.ok audio_file) =
          Except.ok actual →
        transcribe actual = Except.ok (tid, results) →
        results ≠ [] → speaker_names ≠ [] →
        identify tid api_key "name" speaker_names = Except.error e →
        (transcription_worker audio_file api_key speaker_names is_video
            convert transcribe identify).getLast? =
          some (WorkerEvent.failure e)) := by
  intro file key names iv convert transcribe identify
  refine ⟨?_, ?_, ?_, ?_, ?_, ?_⟩
  · cases iv with
    | false => exact (stage2_terminal file key names transcribe identify file).1
    | true =>
      cases h : convert file with
      | error e => simp [transcription_worker, h, isTerminal]
      | ok actual =>
        have h2 := (stage2_terminal file key names transcribe identify actual).1
        simpa [transcription_worker, h, isTerminal] using h2
  · cases iv with
    | false => exact (stage2_terminal file key names transcribe identify file).2
    | true =>
      cases h : convert file with
      | error e =>
        exact ⟨WorkerEvent.failure e, by simp [transcription_worker, h], rfl⟩
      | ok actual =>
        obtain ⟨t, ht, htt⟩ :=
          (stage2_terminal file key names transcribe identify actual).2
        refine ⟨t, ?_, htt⟩
        simp only [transcription_worker, h, if_true]
        exact getLast?_cons_of_getLast? _ ht
  · intro e hv hc
    subst hv
    simp [transcription_worker, hc]
  · intro e hv ht
    subst hv
    simp [transcription_worker, worker_stage2, ht]
  · intro actual e hv hc ht
    subst hv
    simp [transcription_worker, worker_stage2, hc, ht]
  · intro e actual tid results hif htr hr hn hi
    cases iv with
    | false =>
      simp only [if_neg Bool.false_ne_true, Except.ok.injEq] at hif
      subst hif
      simp [transcription_worker, worker_stage2, worker_after_transcription,
        htr, hr, hn, hi]
    | true =>
      simp only [if_pos] at hif
      simp [transcription_worker, worker_stage2, worker_after_transcription,
        hif, htr, hr, hn, hi]

theorem C4_worker_single_terminal_witness :
    transcription_worker "v.mp4" "k" [] true
        (fun _ => Except.error "ffmpeg conversion failed")
        (fun _ => Except.ok ("t", [])) (fun _ _ _ _ => Except.ok []) =
      [WorkerEvent.failure "ffmpeg conversion failed"] :=
  (C4_worker_single_terminal "v.mp4" "k" [] true
      (fun _ => Except.error "ffmpeg conversion failed")
      (fun _ => Except.ok ("t", [])) (fun _ _ _ _ => Except.ok [])).2.2.1
    "ffmpeg conversion failed" rfl rfl

/-- C5 (amended): the identification call is best-effort on every failure
its `except` clause covers: a transport error or a JSON decode error yields
the empty list, a missing or mis-typed field anywhere in the response
envelope yields the empty list, a successful extraction is returned as-is,
and a worker whose identification stage returns the empty list still posts
a completion event carrying the original generic-labelled results (the job
reaches Done).  However, a response body that is not valid UTF-8 raises
`UnicodeDecodeError`, which is not among the caught exceptions:
`identify_speakers` propagates it and the job Fails at the worker boundary
instead of completing. -/
theorem C5_identify_best_effort :
    (∀ (tid key stype : String) (names : List String)
        (net : IdRequest → NetResult),
      net (identify_request tid key stype names) = NetResult.failure →
      identify_speakers tid key stype names net = Except.ok []) ∧
    (∀ (tid key stype : String) (names : List String)
        (net : IdRequest → NetResult) (body : Jval) (err : PyErr),
      net (identify_request tid key stype names) = NetResult.success body →
      extract_identified body = Except.error err →
      identify_speakers tid key stype names net = Except.ok []) ∧
    (∀ (tid key stype : String) (names : List String)
        (net : IdRequest → NetResult) (body : Jval)
        (pairs : List (Jval × Jval)),
      net (identify_request tid key stype names) = NetResult.success body →
      extract_identified body = Except.ok pairs →
      identify_speakers tid key stype names net = Except.ok pairs) ∧
    (∀ (tid key stype : String) (names : List String)
        (net : IdRequest → NetResult) (msg : String),
      net (identify_request tid key stype names) = NetResult.undecodable msg →
      identify_speakers tid key stype names net = Except.error msg) ∧
    (∀ (file key : String) (names : List String)
        (convert : String → Except String String)
        (transcribe : String → Except String (String × List (String × String)))
        (identify : String → String → String → List String →
          Except String (List (String × String))) (tid : String)
        (results : List (String × String)),
      transcribe file = Except.ok (tid, results) →
      (∀ a b c d, identify a b c d = Except.ok []) →
      (transcription_worker file key names false convert transcribe
          identify).getLast? =
        some (WorkerEvent.complete file results false)) := by
  refine ⟨?_, ?_, ?_, ?_, ?_⟩
  · intro tid key stype names net h
    simp [identify_speakers, h]
  · intro tid key stype names net body err h he
    simp [identify_speakers, h, he]
  · intro tid key stype names net body pairs h he
    simp [identify_speakers, h, he]
  · intro tid key stype names net msg h
    simp [identify_speakers, h]
  · intro file key names convert transcribe identify tid results ht hid
    by_cases h1 : results ≠ [] ∧ names ≠ []
    · simp [transcription_worker, worker_stage2, worker_after_transcription,
        ht, h1, hid]
    · simp [transcription_worker, worker_stage2, worker_after_transcription,
        ht, h1]

/-- C5 counterexample: with a response body that is not valid UTF-8, the
claim requires `identify_speakers` to return the empty list and the job to
still reach Done with the original results; instead the decode exception
escapes the `except` clause (`identify_speakers` raises rather than
returning a list) and the worker, given utterances and a speaker name,
ends in the terminal error event — the job Fails. -/
theorem C5_identify_best_effort_counterexample :
    identify_speakers "t" "k" "name" ["Alice"]
        (fun _ => NetResult.undecodable "utf-8 codec cannot decode byte") =
      Except.error "utf-8 codec cannot decode byte" ∧
    (transcription_worker "f" "k" ["Alice"] false (fun s => Except.ok s)
        (fun _ => Except.ok ("t", [("A", "hi")]))
        (fun _ _ _ _ =>
          Except.error "utf-8 codec cannot decode byte")).getLast? =
      some (WorkerEvent.failure "utf-8 codec cannot decode byte") := by
  exact ⟨rfl, rfl⟩

theorem C5_identify_best_effort_witness :
    identify_speakers "tid" "key" "name" [] (fun _ => NetResult.failure) =
      Except.ok [] :=
  C5_identify_best_effort.1 "tid" "key" "name" [] (fun _ => NetResult.failure)
    rfl

/-- C6: with a successful conversion (or an audio source) and a successful
transcription, the identification progress event — posted exactly when the
worker calls the identification client — appears if and only if the
transcription produced a non-empty utterance list and the user supplied at
least one speaker name; when identification returns (without raising) a
non-empty result, the terminal completion event carries exactly that
result (wholesale replacement, no element-by-element merge); and when no
names were supplied (or no utterances were produced) the worker completes
directly with the raw results and never posts the identification event. -/
theorem C6_identify_gate :
    ∀ (file key : String) (names : List String) (is_video : Bool)
      (convert : String → Except String String)
      (transcribe : String → Except String (String × List (String × String)))
      (identify : String → String → String → List String →
        Except String (List (String × String)))
      (actual tid : String) (results : List (String × String)),
      (if is_video then convert file else Except.ok file) = Except.ok actual →
      transcribe actual = Except.ok (tid, results) →
      ((WorkerEvent.progress "Identifying speakers…" ∈
          transcription_worker file key names is_video convert transcribe
            identify) ↔ (results ≠ [] ∧ names ≠ [])) ∧
      (results ≠ [] → names ≠ [] →
        ∀ idres, identify tid key "name" names = Except.ok idres →
        idres ≠ [] →
        (transcription_worker file key names is_video convert transcribe
            identify).getLast? =
          some (WorkerEvent.complete file idres true)) ∧
      ((results = [] ∨ names = []) →
        (transcription_worker file key names is_video convert transcribe
            identify).getLast? =
          some (WorkerEvent.complete file results false)) := by
  intro file key names iv convert transcribe identify actual tid results hif ht
  have hne : ("Identifying speakers…" : String) ≠
      "Uploading and transcribing…" := by decide
  cases iv with
  | false =>
    simp only [if_neg Bool.false_ne_true, Except.ok.injEq] at hif
    subst hif
    refine ⟨?_, ?_, ?_⟩
    · by_cases h1 : results ≠ [] ∧ names ≠ []
      · cases hi : identify tid key "name" names with
        | error e =>
          simp [transcription_worker, worker_stage2,
            worker_after_transcription, ht, h1, hi]
        | ok idres =>
          by_cases h2 : idres ≠ [] <;>
            simp [transcription_worker, worker_stage2,
              worker_after_transcription, ht, h1, hi, h2]
      · simp [transcription_worker, worker_stage2, worker_after_transcription,
          ht, h1]
    · intro hr hn idres hi h2
      simp [transcription_worker, worker_stage2, worker_after_transcription,
        ht, hr, hn, hi, h2]
    · intro hor
      have h1 : ¬ (results ≠ [] ∧ names ≠ []) := by tauto
      simp [transcription_worker, worker_stage2, worker_after_transcription,
        ht, h1]
  | true =>
    simp only [if_pos] at hif
    refine ⟨?_, ?_, ?_⟩
    · by_cases h1 : results ≠ [] ∧ names ≠ []
      · cases hi : identify tid key "name" names with
        | error e =>
          simp [transcription_worker, worker_stage2,
            worker_after_transcription, hif, ht, h1, hi, hne]
        | ok idres =>
          by_cases h2 : idres ≠ [] <;>
            simp [transcription_worker, worker_stage2,
              worker_after_transcription, hif, ht, h1, hi, h2, hne]
      · simp [transcription_worker, worker_stage2, worker_after_transcription,
          hif, ht, h1, hne]
    · intro hr hn idres hi h2
      simp [transcription_worker, worker_stage2, worker_after_transcription,
        hif, ht, hr, hn, hi, h2]
    · intro hor
      have h1 : ¬ (results ≠ [] ∧ names ≠ []) := by tauto
      simp [transcription_worker, worker_stage2, worker_after_transcription,
        hif, ht, h1]

theorem C6_identify_gate_witness :
    (transcription_worker "f" "k" ["Alice"] false (fun s => Except.ok s)
        (fun _ => Except.ok ("t", [("A", "hi")]))
        (fun _ _ _ _ => Except.ok [("Alice", "hi")])).getLast? =
      some (WorkerEvent.complete "f" [("Alice", "hi")] true) :=
  ((C6_identify_gate "f" "k" ["Alice"] false (fun s => Except.ok s)
      (fun _ => Except.ok ("t", [("A", "hi")]))
      (fun _ _ _ _ => Except.ok [("Alice", "hi")]) "f" "t" [("A", "hi")]
      rfl rfl).2.1
    (by decide) (by decide) [("Alice", "hi")] rfl (by decide))

theorem C8_speed_change_witness :
    on_speed_change 2 "a.mp3" true true playing_player =
      { playing_player with freq := ⌊(44100 : ℚ) * 2⌋,
                            loadedPath := some "a.mp3", playing := true,
                            paused := false,
                            position := playing_player.position } :=
  (C8_speed_change 2 "a.mp3" true true playing_player).1 rfl (by decide) rfl rfl


theorem build_go_eq (l : List (String × String)) :
    ∀ acc : List String, acc.length < 6 →
      build_rename_speakers_go l acc =
        acc ++ (distinct_seen acc (l.map Prod.fst)).take (6 - acc.length) := by
  induction l with
  | nil =>
    intro acc h
    simp [build_rename_speakers_go, distinct_seen]
  | cons head rest ih =>
    intro acc hlen
    obtain ⟨sp, txt⟩ := head
    by_cases hc : sp ∈ acc
    · simp only [build_rename_speakers_go, if_pos hc, List.map_cons,
        distinct_seen]
      exact ih acc hlen
    · have htake : 6 - acc.length = (5 - acc.length) + 1 := by omega
      by_cases hb : acc.length + 1 ≥ 6
      · have h0 : 5 - acc.length = 0 := by omega
        simp only [build_rename_speakers_go, if_neg hc, if_pos hb,
          List.map_cons, distinct_seen, htake, List.take_succ_cons, h0,
          List.take_zero]
      · have hlt : (acc ++ [sp]).length < 6 := by
          simp only [List.length_append, List.length_singleton]
          omega
        have hrec := ih (acc ++ [sp]) hlt
        have hlen2 : 6 - (acc ++ [sp]).length = 5 - acc.length := by
          simp only [List.length_append, List.length_singleton]
          omega
        simp only [build_rename_speakers_go, if_neg hc, if_neg hb,
          List.map_cons, distinct_seen, htake, List.take_succ_cons]
        rw [hrec, hlen2, List.append_assoc]
        rfl

theorem build_rename_speakers_eq (results : List (String × String)) :
    build_rename_speakers results =
      (distinct_in_order (results.map Prod.fst)).take 6 := by
  have h := build_go_eq results [] (by decide)
  simpa [build_rename_speakers, distinct_in_order] using h

theorem lookup_eq_none_of_keys (renames : List (String × String))
    (label : String) (h : ∀ kv ∈ renames, kv.1 ≠ label) :
    renames.lookup label = none := by
  induction renames with
  | nil => rfl
  | cons kv rest ih =>
    have hk : kv.1 ≠ label := h kv (by simp)
    have hkb : (label == kv.1) = false := by
      cases hb : label == kv.1
      · rfl
      · have heq : label = kv.1 := by simpa using hb
        exact absurd heq.symm hk
    obtain ⟨k, v⟩ := kv
    simp only [List.lookup, hkb]
    exact ih (fun kv' hm => h kv' (by simp [hm]))

/-- C10: when a job completes without successful identification, rename
fields are created exactly for the first six distinct speaker labels in
order of first appearance in the results (`distinct_in_order` followed by
`take 6`); a label outside that set has no override entry in any rename map
whose keys come from the created fields, so its utterances always fall back
to the default formatting — for a single-character generic label, the
"SPEAKER "-prefixed form — and can never be renamed by the user. -/
theorem C10_rename_first_six :
    ∀ (results : List (String × String)),
      build_rename_speakers results =
        (distinct_in_order (results.map Prod.fst)).take 6 ∧
      (build_rename_speakers results).length ≤ 6 ∧
      (∀ (label : String) (renames : List (String × String))
          (identified : Bool),
        (∀ kv ∈ renames, kv.1 ∈ build_rename_speakers results) →
        label ∉ build_rename_speakers results →
        get_speaker_display renames label identified =
          format_speaker label identified) ∧
      (∀ (label : String) (renames : List (String × String)),
        (∀ kv ∈ renames, kv.1 ∈ build_rename_speakers results) →
        label ∉ build_rename_speakers results → label.length ≤ 1 →
        get_speaker_display renames label false = "SPEAKER " ++ label) := by
  intro results
  have heq := build_rename_speakers_eq results
  have hdisp : ∀ (label : String) (renames : List (String × String))
      (identified : Bool),
      (∀ kv ∈ renames, kv.1 ∈ build_rename_speakers results) →
      label ∉ build_rename_speakers results →
      get_speaker_display renames label identified =
        format_speaker label identified := by
    intro label renames identified hkeys hnot
    have hnone : renames.lookup label = none := by
      apply lookup_eq_none_of_keys
      intro kv hm he
      exact hnot (he ▸ hkeys kv hm)
    simp [get_speaker_display, hnone]
  refine ⟨heq, ?_, hdisp, ?_⟩
  · rw [heq]
    have := List.length_take 6 (distinct_in_order (results.map Prod.fst))
    omega
  · intro label renames hkeys hnot hlab
    rw [hdisp label renames false hkeys hnot]
    have hgt : ¬ (1 : Nat) < label.length := by omega
    simp [format_speaker, hgt]

theorem C10_rename_first_six_witness :
    get_speaker_display [("A", "Alice")] "G" false = "SPEAKER " ++ "G" :=
  (C10_rename_first_six
      [("A", "u1"), ("B", "u2"), ("C", "u3"), ("D", "u4"), ("E", "u5"),
       ("F", "u6"), ("G", "u7")]).2.2.2 "G" [("A", "Alice")]
    (by decide) (by decide) (by decide)
